import Mathlib

/-!
# soloway-sdk-go: the API client (`client.go`, `methods.go`)

A shallow embedding of the client and its five public operations.

* The Go standard library is the environment (`Env`): the JSON encoder and
  decoders, the URL check of `http.NewRequest` and the HTTP exchange `tr.Do`
  are fields of it.  Errors that come from the library are texts, wrapped in
  `GoError.external`; the errors the package itself creates have their own
  constructors.
* A call is run to a `Run`: how the call ended (`Outcome`: it returned, it
  panicked, or it ended the process), the client afterwards, the requests
  handed to the transport and the errors written to the log.
-/

namespace Solowaysdk

/-! ## Errors and outcomes -/

/-- Go `error` values that the operations can return. -/
inductive GoError where
  /-- The package variable `ErrAuthorize = errors.New("авторизация не пройдена")`. -/
  | ErrAuthorize
  /-- The struct `APIError` with its `message`. -/
  | APIError (message : String)
  /-- The call `fmt.Errorf(text)` without a wrapped error. -/
  | errorf (text : String)
  /-- The call `fmt.Errorf(text + ": %w", inner)`. -/
  | wrapf (text : String) (inner : GoError)
  /-- An error made by the standard library (`net/http`, `encoding/json`, `io`). -/
  | external (text : String)
  deriving DecidableEq, Repr

/-- The method `APIError.Error()` and the texts of the other errors. -/
def GoError.Error : GoError → String
  | .ErrAuthorize => "авторизация не пройдена"
  | .APIError message => message
  | .errorf text => text
  | .wrapf text inner => text ++ ": " ++ inner.Error
  | .external text => text

/-- How a call of a Go function ends. -/
inductive Outcome (α : Type) where
  /-- The function returned `a` to its caller. -/
  | returned (a : α)
  /-- A run-time panic unwound the function. -/
  | panicked (text : String)
  /-- The call `log.Fatal`: the process ended with the given exit code. -/
  | exited (code : Nat)
  deriving DecidableEq, Repr

/-! ## Data model -/

/-- Modelled from the spec: the nested client record of `AccountInfo`, whose declaration is not
in the source files; only its `GUID` is used by `client.go`. -/
structure ClientInfo where
  GUID : String
  deriving DecidableEq, Repr

/-- Modelled from the spec: the type `AccountInfo` (declared outside the source files):
"username plus a nested client identifier (GUID)". -/
structure AccountInfo where
  Username : String
  Client : ClientInfo
  deriving DecidableEq, Repr

/-- Modelled from the spec: the type `PlacementsInfo` (declared outside the source files):
"list of advertising placements", each identified by a GUID. -/
structure PlacementsInfo where
  Items : List String
  deriving DecidableEq, Repr

/-- Modelled from the spec: the type `PlacementsStatByDay` (declared outside the source files):
"per-day statistics for a single placement over a date range"; a day's record is kept as
the pair of its date text and its count. -/
structure PlacementsStatByDay where
  Items : List (String × Int)
  deriving DecidableEq, Repr

/-- Modelled from the spec: the type `ReqPlacementsStat` (declared outside the source files),
with the four fields `GetPlacementsStat` assigns: `placement_ids`, `start_date`,
`stop_date`, `with_archived`. -/
structure ReqPlacementsStat where
  PlacementIDS : List String
  StartDate : String
  StopDate : String
  WithArchived : Int
  deriving DecidableEq, Repr

/-- The struct `ReqUserInfo`, the decoded body of the login response. -/
structure ReqUserInfo where
  Username : String
  Error : String
  deriving DecidableEq, Repr

/-- The struct `Client` without its transport handle `tr`, whose behaviour is `Env.Do`. -/
structure Client where
  Username : String
  Password : String
  xSid : String
  AccountInfo : AccountInfo
  deriving DecidableEq, Repr

/-- The constructor `NewClient`: the token and the account info start as zero values. -/
def NewClient (username : String) (password : String) : Client :=
  { Username := username, Password := password, xSid := "", AccountInfo := ⟨"", ⟨""⟩⟩ }

/-! ## Constants of `methods.go` -/

def Host : String := "https://dsp.soloway.ru"

namespace method

def Login : String := "/api/login"
def Whoami : String := "/api/whoami"
def PlacementsStat : String := "/api/placements_stat"
def PlacementStatByDay : String := "/api/placements"

end method

/-! ## `time.Time` and the layout `2006-01-02` -/

/-- The civil date `t.Date()` of a `time.Time`: any year, a month of 1..12, a day of 1..31. -/
structure Time where
  year : Int
  month : Nat
  day : Nat
  month_range : 1 ≤ month ∧ month ≤ 12
  day_range : 1 ≤ day ∧ day ≤ 31

/-- The function `appendInt` of package `time`: a minus sign for a negative number, then its
decimal digits, padded with zeros on the left to at least `width` digits. -/
def appendInt (x : Int) (width : Nat) : List Char :=
  let u := x.natAbs
  let sign := if x < 0 then ['-'] else []
  if width = 2 ∧ u < 100 then
    sign ++ [Nat.digitChar (u / 10), Nat.digitChar (u % 10)]
  else if width = 4 ∧ u < 10000 then
    sign ++ [Nat.digitChar (u / 100 / 10), Nat.digitChar (u / 100 % 10),
             Nat.digitChar (u % 100 / 10), Nat.digitChar (u % 100 % 10)]
  else
    let ds := Nat.toDigits 10 u
    sign ++ List.replicate (width - ds.length) '0' ++ ds

/-- The call `t.Format("2006-01-02")`, also `t.Format(time.DateOnly)`: the long year, the
zero-padded month and the zero-padded day, with the literal `-` between them. -/
def Time.Format (t : Time) : String :=
  String.mk (appendInt t.year 4 ++ ['-'] ++ appendInt t.month 2 ++ ['-'] ++ appendInt t.day 2)

/-! ## HTTP -/

/-- An `http.Request` as far as the client sets it. -/
structure Request where
  Method : String
  URL : String
  Header : List (String × String)
  Body : Option String
  deriving DecidableEq, Repr

/-- An `http.Response` as far as the client reads it. `Header k` is the slice `Header[k]`
(empty when the key is absent), `Body` is what `io.ReadAll(resp.Body)` gives, `Close` is the
error of `resp.Body.Close()`, if any. -/
structure Response where
  StatusCode : Int
  Status : String
  Header : String → List String
  Body : Except String String
  Close : Option String

/-- The standard library and the remote server. -/
structure Env where
  /-- The result of `json.Marshal` for a `map[string]string`, which cannot fail. -/
  marshalMap : List (String × String) → String
  /-- The bytes `json.NewEncoder(&buf).Encode` writes for a `ReqPlacementsStat`; encoding a
  struct of strings, a string slice and an int cannot fail. -/
  encodeStat : ReqPlacementsStat → String
  /-- The error of `http.NewRequest` for a method and a URL, if any. -/
  requestErr : String → String → Option String
  /-- The exchange `c.tr.Do(req)`. -/
  Do : Request → Except String Response
  /-- The call `json.Unmarshal(bytes, &data)` for `data : ReqUserInfo`. -/
  unmarshalReqUserInfo : String → Except String ReqUserInfo
  /-- The call `json.Unmarshal(bytes, &data)` for `data : AccountInfo`. -/
  unmarshalAccountInfo : String → Except String AccountInfo
  /-- The call `json.Unmarshal(bytes, &data)` for `data : PlacementsInfo`. -/
  unmarshalPlacementsInfo : String → Except String PlacementsInfo
  /-- The call `json.Unmarshal(bytes, &data)` for `data : string`. -/
  unmarshalString : String → Except String String
  /-- The call `json.Unmarshal(bytes, &data)` for `data : PlacementsStatByDay`. -/
  unmarshalPlacementsStatByDay : String → Except String PlacementsStatByDay

/-- What a call did: how it ended, the client afterwards, the requests handed to the
transport, and the errors written with `log.Println`. -/
structure Run (α : Type) where
  outcome : Outcome α
  client : Client
  sent : List Request
  logged : List String

/-- The result of the helper `doRequest`, which does not change the client. -/
structure Call where
  result : Except GoError String
  sent : List Request
  logged : List String

/-! ## Helpers of `client.go` -/

/-- The function `checkSeed`. -/
def checkSeed (xSeed : String) : Bool :=
  if xSeed = "" then false else true

/-- The function `buildBody`: the JSON text of the parameter map. -/
def buildBody (env : Env) (data : List (String × String)) : Except GoError String :=
  match (Except.ok (env.marshalMap data) : Except String String) with
  | .error err => .error (.wrapf "RequestBuilder@buildBody json convert" (.external err))
  | .ok b => .ok b

/-- The function `buildHeader`: two fixed headers, and `X-sid` when a token pointer is passed. -/
def buildHeader (req : Request) (xSid : Option String) : Request :=
  let h := req.Header ++ [("Accept", "application/json"), ("Content-Type", "application/json")]
  match xSid with
  | some sid => { req with Header := h ++ [("X-sid", sid)] }
  | none => { req with Header := h }

/-- The calls `http.NewRequest` and `http.NewRequestWithContext`. -/
def newRequest (env : Env) (method : String) (url : String) (body : Option String) :
    Except GoError Request :=
  match env.requestErr method url with
  | some err => .error (.external err)
  | none => .ok { Method := method, URL := url, Header := [], Body := body }

/-- The deferred `Body.Close()`: its error, if any, is logged. -/
def closeBody (resp : Response) : List String :=
  match resp.Close with
  | some err => [err]
  | none => []

/-- The method `Client.doRequest`. -/
def Client.doRequest (c : Client) (env : Env) (method : String) (url : String)
    (body : Option String) : Call :=
  if !checkSeed c.xSid then
    ⟨.error .ErrAuthorize, [], []⟩
  else
    match newRequest env method url body with
    | .error err => ⟨.error err, [], []⟩
    | .ok req0 =>
      let req := buildHeader req0 (some c.xSid)
      match env.Do req with
      | .error err => ⟨.error (.external err), [req], []⟩
      | .ok resp =>
        if resp.StatusCode ≠ 200 then
          ⟨.error (.APIError resp.Status), [req], closeBody resp⟩
        else
          match resp.Body with
          | .error err => ⟨.error (.external err), [req], closeBody resp⟩
          | .ok responseBody => ⟨.ok responseBody, [req], closeBody resp⟩

/-! ## The five operations -/

/-- The method `Client.Login`. The returned value is the Go `error` (`none` for `nil`). -/
def Client.Login (c : Client) (env : Env) : Run (Option GoError) :=
  let param := [("username", c.Username), ("password", c.Password)]
  match buildBody env param with
  | .error err => ⟨.returned (some err), c, [], []⟩
  | .ok body =>
    match newRequest env "POST" (Host ++ method.Login) (some body) with
    | .error err => ⟨.returned (some err), c, [], []⟩
    | .ok req0 =>
      let req := buildHeader req0 none
      match env.Do req with
      | .error err => ⟨.returned (some (.external err)), c, [req], []⟩
      | .ok resp =>
        if resp.StatusCode ≠ 200 then
          ⟨.returned (some (.APIError resp.Status)), c, [req], closeBody resp⟩
        else
          match resp.Header "X-Sid" with
          | [] => ⟨.panicked "index out of range [0] with length 0", c, [req], closeBody resp⟩
          | sid :: _ =>
            let c1 := { c with xSid := sid }
            match resp.Body with
            | .error err => ⟨.returned (some (.external err)), c1, [req], closeBody resp⟩
            | .ok responseBody =>
              match env.unmarshalReqUserInfo responseBody with
              | .error err => ⟨.returned (some (.external err)), c1, [req], closeBody resp⟩
              | .ok data =>
                if data.Error ≠ "" then
                  ⟨.returned (some (.APIError data.Error)), c1, [req], closeBody resp⟩
                else
                  ⟨.returned none, c1, [req], closeBody resp⟩

/-- The method `Client.Whoami`. -/
def Client.Whoami (c : Client) (env : Env) : Run (Option GoError) :=
  let r := c.doRequest env "GET" (Host ++ method.Whoami) none
  match r.result with
  | .error err => ⟨.returned (some err), c, r.sent, r.logged⟩
  | .ok responseBody =>
    match env.unmarshalAccountInfo responseBody with
    | .error err => ⟨.returned (some (.external err)), c, r.sent, r.logged⟩
    | .ok data => ⟨.returned none, { c with AccountInfo := data }, r.sent, r.logged⟩

/-- The text of the error both placement operations make when `AccountInfo` is not there. -/
def accountInfoNotFetched : GoError := .errorf "инфо об аккаунте не получено"

/-- The method `Client.GetPlacements`. -/
def Client.GetPlacements (c : Client) (env : Env) : Run (PlacementsInfo × Option GoError) :=
  if c.AccountInfo.Username = "" then
    ⟨.returned (⟨[]⟩, some accountInfoNotFetched), c, [], []⟩
  else
    let r := c.doRequest env "GET"
      (Host ++ "/api/clients/" ++ c.AccountInfo.Client.GUID ++ "/placements") none
    match r.result with
    | .error err => ⟨.returned (⟨[]⟩, some err), c, r.sent, r.logged⟩
    | .ok responseBody =>
      match env.unmarshalPlacementsInfo responseBody with
      | .error err => ⟨.returned (⟨[]⟩, some (.external err)), c, r.sent, r.logged⟩
      | .ok data => ⟨.returned (data, none), c, r.sent, r.logged⟩

/-- The request parameters `GetPlacementsStat` builds (`reqParams`) before it encodes them. -/
def reqParams (placementIds : List String) (startDate : Time) (stopDate : Time)
    (withArchived : Bool) : ReqPlacementsStat :=
  let p : ReqPlacementsStat :=
    { PlacementIDS := placementIds, StartDate := startDate.Format,
      StopDate := stopDate.Format, WithArchived := 0 }
  if withArchived then { p with WithArchived := 1 } else { p with WithArchived := 0 }

/-- The method `Client.GetPlacementsStat`. -/
def Client.GetPlacementsStat (c : Client) (env : Env) (placementIds : List String)
    (startDate : Time) (stopDate : Time) (withArchived : Bool) : Run (Option GoError) :=
  if c.AccountInfo.Username = "" then
    ⟨.returned (some accountInfoNotFetched), c, [], []⟩
  else
    let p := reqParams placementIds startDate stopDate withArchived
    match (Except.ok (env.encodeStat p) : Except String String) with
    | .error _ => ⟨.exited 1, c, [], []⟩
    | .ok buf =>
      let r := c.doRequest env "POST" (Host ++ method.PlacementsStat) (some buf)
      match r.result with
      | .error err => ⟨.returned (some err), c, r.sent, r.logged⟩
      | .ok responseBody =>
        match env.unmarshalString responseBody with
        | .error err => ⟨.returned (some (.external err)), c, r.sent, r.logged⟩
        | .ok _ => ⟨.returned none, c, r.sent, r.logged⟩

/-- The method `Client.GetPlacementStatByDay`. -/
def Client.GetPlacementStatByDay (c : Client) (env : Env) (placementGUID : String)
    (startDate : Time) (stopDate : Time) : Run (PlacementsStatByDay × Option GoError) :=
  if !checkSeed c.xSid then
    ⟨.returned (⟨[]⟩, some .ErrAuthorize), c, [], []⟩
  else
    let param := [("start_date", startDate.Format), ("stop_date", stopDate.Format)]
    match buildBody env param with
    | .error err => ⟨.returned (⟨[]⟩, some (.wrapf "cant build body" err)), c, [], []⟩
    | .ok body =>
      let r := c.doRequest env "POST"
        (Host ++ method.PlacementStatByDay ++ "/" ++ placementGUID ++ "/stat") (some body)
      match r.result with
      | .error err => ⟨.returned (⟨[]⟩, some err), c, r.sent, r.logged⟩
      | .ok responseBody =>
        match env.unmarshalPlacementsStatByDay responseBody with
        | .error err => ⟨.returned (⟨[]⟩, some (.external err)), c, r.sent, r.logged⟩
        | .ok data => ⟨.returned (data, none), c, r.sent, r.logged⟩

/-! ## The five operations, seen as one family -/

/-- The public operations with their arguments. -/
inductive Operation where
  | Login
  | Whoami
  | GetPlacements
  | GetPlacementsStat (placementIds : List String) (startDate : Time) (stopDate : Time)
      (withArchived : Bool)
  | GetPlacementStatByDay (placementGUID : String) (startDate : Time) (stopDate : Time)

/-- The error component of a run whose result is a pair of a value and an error. -/
def Run.errorOnly {α : Type} (r : Run (α × Option GoError)) : Run (Option GoError) :=
  { outcome :=
      match r.outcome with
      | .returned a => .returned a.2
      | .panicked text => .panicked text
      | .exited code => .exited code
    client := r.client
    sent := r.sent
    logged := r.logged }

/-- Run an operation on a client and keep the error it returns. -/
def Operation.run (op : Operation) (c : Client) (env : Env) : Run (Option GoError) :=
  match op with
  | .Login => c.Login env
  | .Whoami => c.Whoami env
  | .GetPlacements => (c.GetPlacements env).errorOnly
  | .GetPlacementsStat ids start stop withArchived =>
    c.GetPlacementsStat env ids start stop withArchived
  | .GetPlacementStatByDay guid start stop => (c.GetPlacementStatByDay env guid start stop).errorOnly

/-- The HTTP method of the request an operation builds. -/
def Operation.httpMethod : Operation → String
  | .Login => "POST"
  | .Whoami => "GET"
  | .GetPlacements => "GET"
  | .GetPlacementsStat _ _ _ _ => "POST"
  | .GetPlacementStatByDay _ _ _ => "POST"

/-- The URL of the request an operation builds on the client `c`. -/
def Operation.url (op : Operation) (c : Client) : String :=
  match op with
  | .Login => Host ++ method.Login
  | .Whoami => Host ++ method.Whoami
  | .GetPlacements => Host ++ "/api/clients/" ++ c.AccountInfo.Client.GUID ++ "/placements"
  | .GetPlacementsStat _ _ _ _ => Host ++ method.PlacementsStat
  | .GetPlacementStatByDay guid _ _ => Host ++ method.PlacementStatByDay ++ "/" ++ guid ++ "/stat"

/-- The body of the request an operation builds on the client `c`. -/
def Operation.body (op : Operation) (c : Client) (env : Env) : Option String :=
  match op with
  | .Login => some (env.marshalMap [("username", c.Username), ("password", c.Password)])
  | .Whoami => none
  | .GetPlacements => none
  | .GetPlacementsStat ids start stop withArchived =>
    some (env.encodeStat (reqParams ids start stop withArchived))
  | .GetPlacementStatByDay _ start stop =>
    some (env.marshalMap [("start_date", start.Format), ("stop_date", stop.Format)])

/-- Whether an operation goes through `doRequest`, which checks the token and sends it. -/
def Operation.needsToken : Operation → Bool
  | .Login => false
  | _ => true

/-- Whether an operation first checks that the account info has a username. -/
def Operation.needsAccountInfo : Operation → Bool
  | .GetPlacements => true
  | .GetPlacementsStat _ _ _ _ => true
  | _ => false

/-- The request an operation hands to the transport once its local checks have passed. -/
def Operation.request (op : Operation) (c : Client) (env : Env) : Request :=
  buildHeader ⟨op.httpMethod, op.url c, [], op.body c env⟩
    (if op.needsToken then some c.xSid else none)

/-- The local preconditions of an operation: the token is set where the operation needs it,
the account info has a username where the operation needs it, and `http.NewRequest` accepts
the method and the URL. -/
def Operation.preconditions (op : Operation) (c : Client) (env : Env) : Prop :=
  (op.needsToken = true → c.xSid ≠ "") ∧
  (op.needsAccountInfo = true → c.AccountInfo.Username ≠ "") ∧
  env.requestErr op.httpMethod (op.url c) = none

/-! ## The date shape in the words of the specification -/

/-- The shape `YYYY-MM-DD`: four digits, `-`, two digits, `-`, two digits. -/
def isYYYYMMDD (s : String) : Bool :=
  match s.data with
  | [y1, y2, y3, y4, s1, m1, m2, s2, d1, d2] =>
    y1.isDigit && y2.isDigit && y3.isDigit && y4.isDigit && s1 == '-' &&
      m1.isDigit && m2.isDigit && s2 == '-' && d1.isDigit && d2.isDigit
  | _ => false

/-- The text `YYYY-MM-DD` of a year, a month and a day: the four decimal digits of the year,
the two of the month and the two of the day, joined by `-`. -/
def renderYYYYMMDD (y m d : Nat) : String :=
  String.mk [Nat.digitChar (y / 1000 % 10), Nat.digitChar (y / 100 % 10),
    Nat.digitChar (y / 10 % 10), Nat.digitChar (y % 10), '-',
    Nat.digitChar (m / 10 % 10), Nat.digitChar (m % 10), '-',
    Nat.digitChar (d / 10 % 10), Nat.digitChar (d % 10)]

/-! ## Concrete servers and clients -/

/-- A mock server: every request is answered with `resp`, and the decoders give `info` and
`acct` for every body. -/
def mockServer (resp : Response) (info : ReqUserInfo) (acct : AccountInfo) : Env :=
  { marshalMap := fun kv => String.join (kv.map fun p => p.1 ++ "=" ++ p.2 ++ ";")
    encodeStat := fun p =>
      String.join (p.PlacementIDS.map fun i => i ++ ",") ++ p.StartDate ++ "," ++ p.StopDate
    requestErr := fun _ _ => none
    Do := fun _ => .ok resp
    unmarshalReqUserInfo := fun _ => .ok info
    unmarshalAccountInfo := fun _ => .ok acct
    unmarshalPlacementsInfo := fun _ => .ok ⟨[]⟩
    unmarshalString := fun _ => .ok ""
    unmarshalPlacementsStatByDay := fun _ => .ok ⟨[]⟩ }

/-- The response headers with the single header `X-Sid: v`. -/
def sidHeader (v : String) : String → List String :=
  fun k => if k = "X-Sid" then [v] else []

/-- The response headers without any header. -/
def noHeader : String → List String :=
  fun _ => []

/-- Status 200, `X-Sid: abc`, a body without an error. -/
def respOK : Response := ⟨200, "200 OK", sidHeader "abc", .ok "ok", none⟩

/-- Status 401. -/
def respUnauthorized : Response := ⟨401, "401 Unauthorized", noHeader, .ok "", none⟩

/-- Status 200 and an error body, with `X-Sid: abc`. -/
def respBadCreds : Response := ⟨200, "200 OK", sidHeader "abc", .ok "bad creds body", none⟩

/-- Status 200 and an error body, without an `X-Sid` header. -/
def respBadCredsNoSid : Response := ⟨200, "200 OK", noHeader, .ok "bad creds body", none⟩

/-- Status 200 and a body without an error, without an `X-Sid` header. -/
def respNoSid : Response := ⟨200, "200 OK", noHeader, .ok "ok", none⟩

/-- Status 200 and a body without an error, with an `X-Sid` header whose value is empty. -/
def respEmptySid : Response := ⟨200, "200 OK", sidHeader "", .ok "ok", none⟩

/-- A client after a login and a whoami. -/
def readyClient : Client :=
  { Username := "u", Password := "p", xSid := "abc", AccountInfo := ⟨"u", ⟨"g1"⟩⟩ }

/-- A client with account info whose token is empty. -/
def tokenlessClient : Client :=
  { Username := "u", Password := "p", xSid := "", AccountInfo := ⟨"u", ⟨"g1"⟩⟩ }

/-- The request `Login` sends for the user `u` with the password `p` to a mock server. -/
def loginRequestUP : Request :=
  ⟨"POST", "https://dsp.soloway.ru/api/login",
    [("Accept", "application/json"), ("Content-Type", "application/json")],
    some "username=u;password=p;"⟩

/-- The seventh of March 2024. -/
def day2024 : Time := ⟨2024, 3, 7, by decide, by decide⟩

/-- The first of January of the year 10000. -/
def day10000 : Time := ⟨10000, 1, 1, by decide, by decide⟩

/-! ## The request helper -/

theorem doRequest_unauthorized (c : Client) (env : Env) (m u : String) (b : Option String)
    (h : c.xSid = "") : c.doRequest env m u b = ⟨.error .ErrAuthorize, [], []⟩ := by
  simp [Client.doRequest, checkSeed, h]

theorem doRequest_sent (c : Client) (env : Env) (m u : String) (b : Option String)
    (req : Request) (hsent : (c.doRequest env m u b).sent = [req]) :
    c.xSid ≠ "" ∧ env.requestErr m u = none ∧
      req = buildHeader ⟨m, u, [], b⟩ (some c.xSid) := by
  unfold Client.doRequest newRequest at hsent
  by_cases hseed : c.xSid = ""
  · simp [checkSeed, hseed] at hsent
  · cases hre : env.requestErr m u
    · simp only [checkSeed, hseed, hre] at hsent
      refine ⟨hseed, rfl, ?_⟩
      cases hd : env.Do (buildHeader ⟨m, u, [], b⟩ (some c.xSid)) with
      | error e => simp [hd] at hsent; exact hsent.symm
      | ok resp =>
        simp only [hd] at hsent
        by_cases hst : resp.StatusCode = 200
        · cases hb : resp.Body <;> simp [hst, hb] at hsent <;> exact hsent.symm
        · simp [hst] at hsent; exact hsent.symm
    · simp [checkSeed, hseed, hre] at hsent

theorem doRequest_run (c : Client) (env : Env) (m u : String) (b : Option String)
    (resp : Response) (hseed : c.xSid ≠ "") (hre : env.requestErr m u = none)
    (hdo : env.Do (buildHeader ⟨m, u, [], b⟩ (some c.xSid)) = .ok resp) :
    c.doRequest env m u b =
      ⟨if resp.StatusCode ≠ 200 then .error (.APIError resp.Status)
        else match resp.Body with
          | .error err => .error (.external err)
          | .ok responseBody => .ok responseBody,
       [buildHeader ⟨m, u, [], b⟩ (some c.xSid)], closeBody resp⟩ := by
  unfold Client.doRequest newRequest
  simp only [checkSeed, hseed, hre, hdo]
  by_cases hst : resp.StatusCode = 200
  · cases hb : resp.Body <;> simp [hst]
  · simp [hst]

theorem doRequest_status (c : Client) (env : Env) (m u : String) (b : Option String)
    (req : Request) (resp : Response)
    (hsent : (c.doRequest env m u b).sent = [req]) (hdo : env.Do req = .ok resp)
    (hst : resp.StatusCode ≠ 200) :
    c.doRequest env m u b = ⟨.error (.APIError resp.Status), [req], closeBody resp⟩ := by
  obtain ⟨h1, h2, h3⟩ := doRequest_sent c env m u b req hsent
  subst h3
  rw [doRequest_run c env m u b resp h1 h2 hdo]
  simp [hst]

/-- The errors of `doRequest` when the token is set: an `APIError` or a library error. -/
theorem doRequest_error_kind (c : Client) (env : Env) (m u : String) (b : Option String)
    (err : GoError) (hseed : c.xSid ≠ "") (h : (c.doRequest env m u b).result = .error err) :
    (∃ text, err = .APIError text) ∨ (∃ text, err = .external text) := by
  unfold Client.doRequest newRequest at h
  simp only [checkSeed, hseed] at h
  cases hre : env.requestErr m u with
  | some e => simp [hre] at h; exact Or.inr ⟨e, h.symm⟩
  | none =>
    simp only [hre] at h
    cases hd : env.Do (buildHeader ⟨m, u, [], b⟩ (some c.xSid)) with
    | error e => simp [hd] at h; exact Or.inr ⟨e, h.symm⟩
    | ok resp =>
      simp only [hd] at h
      by_cases hst : resp.StatusCode = 200
      · cases hb : resp.Body with
        | error e => simp [hst, hb] at h; exact Or.inr ⟨e, h.symm⟩
        | ok bytes => simp [hst, hb] at h
      · simp [hst] at h; exact Or.inl ⟨resp.Status, h.symm⟩

/-! ## Login -/

theorem Login_sent (c : Client) (env : Env) (req : Request)
    (hsent : (c.Login env).sent = [req]) :
    env.requestErr "POST" (Host ++ method.Login) = none ∧
      req = buildHeader ⟨"POST", Host ++ method.Login, [],
        some (env.marshalMap [("username", c.Username), ("password", c.Password)])⟩ none := by
  unfold Client.Login buildBody newRequest at hsent
  cases hre : env.requestErr "POST" (Host ++ method.Login) with
  | some e => simp [hre] at hsent
  | none =>
    simp only [hre] at hsent
    refine ⟨rfl, ?_⟩
    generalize buildHeader _ none = r at hsent ⊢
    cases hd : env.Do r with
    | error e => simp [hd] at hsent; exact hsent.symm
    | ok resp =>
      simp only [hd] at hsent
      by_cases hst : resp.StatusCode = 200
      · simp only [hst, ne_eq, not_true_eq_false, ite_false] at hsent
        cases hh : resp.Header "X-Sid" with
        | nil => simp [hh] at hsent; exact hsent.symm
        | cons v rest =>
          simp only [hh] at hsent
          cases hb : resp.Body with
          | error e => simp [hb] at hsent; exact hsent.symm
          | ok bytes =>
            simp only [hb] at hsent
            cases hu : env.unmarshalReqUserInfo bytes with
            | error e => simp [hu] at hsent; exact hsent.symm
            | ok data =>
              simp only [hu] at hsent
              by_cases he : data.Error = "" <;> simp [he] at hsent <;> exact hsent.symm
      · simp [hst] at hsent; exact hsent.symm

/-- What `Login` does once the transport has answered its request with `resp`. -/
theorem Login_run (c : Client) (env : Env) (req : Request) (resp : Response)
    (hsent : (c.Login env).sent = [req]) (hdo : env.Do req = .ok resp) :
    c.Login env =
      if resp.StatusCode ≠ 200 then
        ⟨.returned (some (.APIError resp.Status)), c, [req], closeBody resp⟩
      else
        match resp.Header "X-Sid" with
        | [] => ⟨.panicked "index out of range [0] with length 0", c, [req], closeBody resp⟩
        | sid :: _ =>
          match resp.Body with
          | .error err =>
            ⟨.returned (some (.external err)), { c with xSid := sid }, [req], closeBody resp⟩
          | .ok responseBody =>
            match env.unmarshalReqUserInfo responseBody with
            | .error err =>
              ⟨.returned (some (.external err)), { c with xSid := sid }, [req], closeBody resp⟩
            | .ok data =>
              if data.Error ≠ "" then
                ⟨.returned (some (.APIError data.Error)), { c with xSid := sid }, [req],
                  closeBody resp⟩
              else
                ⟨.returned none, { c with xSid := sid }, [req], closeBody resp⟩ := by
  obtain ⟨hre, hreq⟩ := Login_sent c env req hsent
  subst hreq
  unfold Client.Login buildBody newRequest
  simp only [hre, hdo]

/-! ## The rendering of dates -/

theorem digitChar_isDigit (n : Nat) (h : n < 10) : (Nat.digitChar n).isDigit = true := by
  interval_cases n <;> decide

theorem appendInt_four (y : Int) (h0 : 0 ≤ y) (h1 : y ≤ 9999) :
    appendInt y 4 = [Nat.digitChar (y.toNat / 1000 % 10), Nat.digitChar (y.toNat / 100 % 10),
      Nat.digitChar (y.toNat / 10 % 10), Nat.digitChar (y.toNat % 10)] := by
  obtain ⟨n, rfl⟩ := Int.eq_ofNat_of_zero_le h0
  have hn : n < 10000 := by omega
  have hneg : ¬ ((n : Int) < 0) := by omega
  have e1 : n / 100 / 10 = n / 1000 % 10 := by omega
  have e2 : n % 100 / 10 = n / 10 % 10 := by omega
  have e3 : n % 100 % 10 = n % 10 := by omega
  simp [appendInt, hn, hneg, e1, e2, e3]

theorem appendInt_two (n : Nat) (h : n < 100) :
    appendInt (n : Int) 2 = [Nat.digitChar (n / 10 % 10), Nat.digitChar (n % 10)] := by
  have hneg : ¬ ((n : Int) < 0) := by omega
  have e1 : n / 10 % 10 = n / 10 := by omega
  simp [appendInt, h, hneg, e1]

theorem Format_in_range (t : Time) (h0 : 0 ≤ t.year) (h1 : t.year ≤ 9999) :
    t.Format = renderYYYYMMDD t.year.toNat t.month t.day := by
  have hm : t.month < 100 := by have := t.month_range; omega
  have hd : t.day < 100 := by have := t.day_range; omega
  simp [Time.Format, renderYYYYMMDD, appendInt_four t.year h0 h1, appendInt_two t.month hm,
    appendInt_two t.day hd]

theorem renderYYYYMMDD_shape (y m d : Nat) : isYYYYMMDD (renderYYYYMMDD y m d) = true := by
  have h : ∀ k : Nat, (Nat.digitChar (k % 10)).isDigit = true :=
    fun k => digitChar_isDigit (k % 10) (Nat.mod_lt k (by decide))
  simp [isYYYYMMDD, renderYYYYMMDD, h]

/-! ## Claims about Login and about failing responses -/

/-- C1: when the transport answers the request of `Login` with status 200, an `X-Sid` header
whose first value is `v`, and a body that decodes with an empty error field, `Login` returns
no error and the session token is `v` afterwards. -/
theorem Login_success_stores_sid (env : Env) (c : Client) (req : Request) (resp : Response)
    (v : String) (rest : List String) (bytes : String) (data : ReqUserInfo)
    (hsent : (c.Login env).sent = [req]) (hdo : env.Do req = .ok resp)
    (hstatus : resp.StatusCode = 200) (hsid : resp.Header "X-Sid" = v :: rest)
    (hbody : resp.Body = .ok bytes) (hdec : env.unmarshalReqUserInfo bytes = .ok data)
    (herr : data.Error = "") :
    (c.Login env).outcome = .returned none ∧ (c.Login env).client.xSid = v := by
  rw [Login_run c env req resp hsent hdo]
  simp [hstatus, hsid, hbody, hdec, herr]

/-- C1, at the mock server that answers 200 with `X-Sid: abc`: the token becomes `abc`. -/
theorem Login_success_stores_sid_witness :
    ((NewClient "u" "p").Login (mockServer respOK ⟨"u", ""⟩ ⟨"u", ⟨"g1"⟩⟩)).outcome
        = .returned none ∧
      ((NewClient "u" "p").Login (mockServer respOK ⟨"u", ""⟩ ⟨"u", ⟨"g1"⟩⟩)).client.xSid
        = "abc" :=
  Login_success_stores_sid (mockServer respOK ⟨"u", ""⟩ ⟨"u", ⟨"g1"⟩⟩) (NewClient "u" "p")
    loginRequestUP respOK "abc" [] "ok" ⟨"u", ""⟩ (by decide) rfl (by decide) (by decide)
    rfl rfl rfl

/-- C2: for each of the five operations, when its local preconditions pass (the token and the
account info are there where the operation checks them, and the request can be built) and
the transport answers the request of the operation with a status other than 200, the
operation sends that one request, returns an `APIError` whose message is the status text of
the response, and leaves the session token and the account info of the client as they were
before the call. -/
theorem non200_returns_APIError (op : Operation) (env : Env) (c : Client) (resp : Response)
    (hpre : op.preconditions c env) (hdo : env.Do (op.request c env) = .ok resp)
    (hstatus : resp.StatusCode ≠ 200) :
    (op.run c env).outcome = .returned (some (.APIError resp.Status)) ∧
      (op.run c env).client.xSid = c.xSid ∧
      (op.run c env).client.AccountInfo = c.AccountInfo ∧
      (op.run c env).sent = [op.request c env] := by
  obtain ⟨htok, hacc, hre⟩ := hpre
  cases op with
  | Login =>
    simp only [Operation.httpMethod, Operation.url] at hre
    simp only [Operation.request, Operation.httpMethod, Operation.url, Operation.body,
      Operation.needsToken, Bool.false_eq_true, if_false] at hdo ⊢
    simp only [Operation.run, Client.Login, buildBody, newRequest, hre, hdo]
    simp [hstatus]
  | Whoami =>
    have hseed : c.xSid ≠ "" := htok rfl
    simp only [Operation.httpMethod, Operation.url] at hre
    simp only [Operation.request, Operation.httpMethod, Operation.url, Operation.body,
      Operation.needsToken, if_true] at hdo ⊢
    simp only [Operation.run, Client.Whoami, doRequest_run c env _ _ _ resp hseed hre hdo]
    simp [hstatus]
  | GetPlacements =>
    have hseed : c.xSid ≠ "" := htok rfl
    have hu : c.AccountInfo.Username ≠ "" := hacc rfl
    simp only [Operation.httpMethod, Operation.url] at hre
    simp only [Operation.request, Operation.httpMethod, Operation.url, Operation.body,
      Operation.needsToken, if_true] at hdo ⊢
    simp only [Operation.run, Client.GetPlacements, Run.errorOnly, hu, if_false,
      doRequest_run c env _ _ _ resp hseed hre hdo]
    simp [hstatus]
  | GetPlacementsStat ids start stop withArchived =>
    have hseed : c.xSid ≠ "" := htok rfl
    have hu : c.AccountInfo.Username ≠ "" := hacc rfl
    simp only [Operation.httpMethod, Operation.url] at hre
    simp only [Operation.request, Operation.httpMethod, Operation.url, Operation.body,
      Operation.needsToken, if_true] at hdo ⊢
    simp only [Operation.run, Client.GetPlacementsStat, hu, if_false,
      doRequest_run c env _ _ _ resp hseed hre hdo]
    simp [hstatus]
  | GetPlacementStatByDay guid start stop =>
    have hseed : c.xSid ≠ "" := htok rfl
    simp only [Operation.httpMethod, Operation.url] at hre
    simp only [Operation.request, Operation.httpMethod, Operation.url, Operation.body,
      Operation.needsToken, if_true] at hdo ⊢
    simp only [Operation.run, Client.GetPlacementStatByDay, Run.errorOnly, buildBody,
      checkSeed, hseed, doRequest_run c env _ _ _ resp hseed hre hdo]
    simp [hstatus]

/-- C2, at a mock server that answers 401: `Login` on a fresh client returns the `APIError`
with the status text and the token stays empty; `Whoami`, `GetPlacements`,
`GetPlacementsStat` and `GetPlacementStatByDay` on a client that is logged in and has its
account info return the same error, and the token and the account info stay as they were. -/
theorem non200_returns_APIError_witness :
    (((NewClient "u" "p").Login (mockServer respUnauthorized ⟨"", ""⟩ ⟨"", ⟨""⟩⟩)).outcome
        = .returned (some (.APIError "401 Unauthorized")) ∧
      ((NewClient "u" "p").Login
          (mockServer respUnauthorized ⟨"", ""⟩ ⟨"", ⟨""⟩⟩)).client.xSid = "" ∧
      ((NewClient "u" "p").Login
          (mockServer respUnauthorized ⟨"", ""⟩ ⟨"", ⟨""⟩⟩)).client.AccountInfo = ⟨"", ⟨""⟩⟩ ∧
      ((NewClient "u" "p").Login (mockServer respUnauthorized ⟨"", ""⟩ ⟨"", ⟨""⟩⟩)).sent
        = [loginRequestUP]) ∧
    ((readyClient.Whoami (mockServer respUnauthorized ⟨"", ""⟩ ⟨"", ⟨""⟩⟩)).outcome
        = .returned (some (.APIError "401 Unauthorized")) ∧
      (readyClient.Whoami (mockServer respUnauthorized ⟨"", ""⟩ ⟨"", ⟨""⟩⟩)).client.xSid
        = "abc" ∧
      (readyClient.Whoami (mockServer respUnauthorized ⟨"", ""⟩ ⟨"", ⟨""⟩⟩)).client.AccountInfo
        = ⟨"u", ⟨"g1"⟩⟩ ∧
      (readyClient.Whoami (mockServer respUnauthorized ⟨"", ""⟩ ⟨"", ⟨""⟩⟩)).sent
        = [⟨"GET", "https://dsp.soloway.ru/api/whoami",
            [("Accept", "application/json"), ("Content-Type", "application/json"),
              ("X-sid", "abc")], none⟩]) ∧
    (((readyClient.GetPlacements
          (mockServer respUnauthorized ⟨"", ""⟩ ⟨"", ⟨""⟩⟩)).errorOnly).outcome
        = .returned (some (.APIError "401 Unauthorized")) ∧
      ((readyClient.GetPlacements
          (mockServer respUnauthorized ⟨"", ""⟩ ⟨"", ⟨""⟩⟩)).errorOnly).client.xSid = "abc" ∧
      ((readyClient.GetPlacements
          (mockServer respUnauthorized ⟨"", ""⟩ ⟨"", ⟨""⟩⟩)).errorOnly).client.AccountInfo
        = ⟨"u", ⟨"g1"⟩⟩ ∧
      ((readyClient.GetPlacements
          (mockServer respUnauthorized ⟨"", ""⟩ ⟨"", ⟨""⟩⟩)).errorOnly).sent
        = [⟨"GET", "https://dsp.soloway.ru/api/clients/g1/placements",
            [("Accept", "application/json"), ("Content-Type", "application/json"),
              ("X-sid", "abc")], none⟩]) ∧
    ((readyClient.GetPlacementsStat (mockServer respUnauthorized ⟨"", ""⟩ ⟨"", ⟨""⟩⟩)
          ["p1"] day2024 day2024 true).outcome
        = .returned (some (.APIError "401 Unauthorized")) ∧
      (readyClient.GetPlacementsStat (mockServer respUnauthorized ⟨"", ""⟩ ⟨"", ⟨""⟩⟩)
          ["p1"] day2024 day2024 true).client.xSid = "abc" ∧
      (readyClient.GetPlacementsStat (mockServer respUnauthorized ⟨"", ""⟩ ⟨"", ⟨""⟩⟩)
          ["p1"] day2024 day2024 true).client.AccountInfo = ⟨"u", ⟨"g1"⟩⟩ ∧
      (readyClient.GetPlacementsStat (mockServer respUnauthorized ⟨"", ""⟩ ⟨"", ⟨""⟩⟩)
          ["p1"] day2024 day2024 true).sent
        = [⟨"POST", "https://dsp.soloway.ru/api/placements_stat",
            [("Accept", "application/json"), ("Content-Type", "application/json"),
              ("X-sid", "abc")], some "p1,2024-03-07,2024-03-07"⟩]) ∧
    (((readyClient.GetPlacementStatByDay (mockServer respUnauthorized ⟨"", ""⟩ ⟨"", ⟨""⟩⟩)
          "g2" day2024 day2024).errorOnly).outcome
        = .returned (some (.APIError "401 Unauthorized")) ∧
      ((readyClient.GetPlacementStatByDay (mockServer respUnauthorized ⟨"", ""⟩ ⟨"", ⟨""⟩⟩)
          "g2" day2024 day2024).errorOnly).client.xSid = "abc" ∧
      ((readyClient.GetPlacementStatByDay (mockServer respUnauthorized ⟨"", ""⟩ ⟨"", ⟨""⟩⟩)
          "g2" day2024 day2024).errorOnly).client.AccountInfo = ⟨"u", ⟨"g1"⟩⟩ ∧
      ((readyClient.GetPlacementStatByDay (mockServer respUnauthorized ⟨"", ""⟩ ⟨"", ⟨""⟩⟩)
          "g2" day2024 day2024).errorOnly).sent
        = [⟨"POST", "https://dsp.soloway.ru/api/placements/g2/stat",
            [("Accept", "application/json"), ("Content-Type", "application/json"),
              ("X-sid", "abc")], some "start_date=2024-03-07;stop_date=2024-03-07;"⟩]) :=
  ⟨non200_returns_APIError .Login (mockServer respUnauthorized ⟨"", ""⟩ ⟨"", ⟨""⟩⟩)
      (NewClient "u" "p") respUnauthorized ⟨by decide, by decide, rfl⟩ rfl (by decide),
    non200_returns_APIError .Whoami (mockServer respUnauthorized ⟨"", ""⟩ ⟨"", ⟨""⟩⟩)
      readyClient respUnauthorized ⟨by decide, by decide, rfl⟩ rfl (by decide),
    non200_returns_APIError .GetPlacements (mockServer respUnauthorized ⟨"", ""⟩ ⟨"", ⟨""⟩⟩)
      readyClient respUnauthorized ⟨by decide, by decide, rfl⟩ rfl (by decide),
    non200_returns_APIError (.GetPlacementsStat ["p1"] day2024 day2024 true)
      (mockServer respUnauthorized ⟨"", ""⟩ ⟨"", ⟨""⟩⟩)
      readyClient respUnauthorized ⟨by decide, by decide, rfl⟩ rfl (by decide),
    non200_returns_APIError (.GetPlacementStatByDay "g2" day2024 day2024)
      (mockServer respUnauthorized ⟨"", ""⟩ ⟨"", ⟨""⟩⟩)
      readyClient respUnauthorized ⟨by decide, by decide, rfl⟩ rfl (by decide)⟩

/-! ## Claims about the local checks -/

/-- C4: on a client whose session token is empty, `Whoami` and `GetPlacementStatByDay` (for
all arguments), and `GetPlacements` and `GetPlacementsStat` when the account info is there,
return `ErrAuthorize`, send no request, and leave the token and the account info as they
were. -/
theorem empty_token_returns_ErrAuthorize (env : Env) (c : Client) (h : c.xSid = "") :
    ((c.Whoami env).outcome = .returned (some .ErrAuthorize) ∧ (c.Whoami env).sent = [] ∧
        (c.Whoami env).client.xSid = c.xSid ∧
        (c.Whoami env).client.AccountInfo = c.AccountInfo) ∧
    (∀ (guid : String) (start stop : Time),
      (c.GetPlacementStatByDay env guid start stop).outcome
          = .returned (⟨[]⟩, some .ErrAuthorize) ∧
        (c.GetPlacementStatByDay env guid start stop).sent = [] ∧
        (c.GetPlacementStatByDay env guid start stop).client.xSid = c.xSid ∧
        (c.GetPlacementStatByDay env guid start stop).client.AccountInfo = c.AccountInfo) ∧
    (c.AccountInfo.Username ≠ "" →
      ((c.GetPlacements env).outcome = .returned (⟨[]⟩, some .ErrAuthorize) ∧
        (c.GetPlacements env).sent = [] ∧
        (c.GetPlacements env).client.xSid = c.xSid ∧
        (c.GetPlacements env).client.AccountInfo = c.AccountInfo) ∧
      (∀ (ids : List String) (start stop : Time) (withArchived : Bool),
        (c.GetPlacementsStat env ids start stop withArchived).outcome
            = .returned (some .ErrAuthorize) ∧
          (c.GetPlacementsStat env ids start stop withArchived).sent = [] ∧
          (c.GetPlacementsStat env ids start stop withArchived).client.xSid = c.xSid ∧
          (c.GetPlacementsStat env ids start stop withArchived).client.AccountInfo
            = c.AccountInfo)) := by
  refine ⟨?_, ?_, ?_⟩
  · simp [Client.Whoami, doRequest_unauthorized c env _ _ _ h]
  · intro guid start stop
    simp [Client.GetPlacementStatByDay, checkSeed, h]
  · intro hu
    refine ⟨?_, ?_⟩
    · simp [Client.GetPlacements, hu, doRequest_unauthorized c env _ _ _ h]
    · intro ids start stop withArchived
      simp [Client.GetPlacementsStat, hu, doRequest_unauthorized c env _ _ _ h]

/-- C4, on a client with account info and an empty token, against a server that would answer
200: the four operations return `ErrAuthorize` and nothing is sent. -/
theorem empty_token_returns_ErrAuthorize_witness :
    (tokenlessClient.Whoami (mockServer respOK ⟨"u", ""⟩ ⟨"u", ⟨"g1"⟩⟩)).outcome
        = .returned (some .ErrAuthorize) ∧
      (tokenlessClient.Whoami (mockServer respOK ⟨"u", ""⟩ ⟨"u", ⟨"g1"⟩⟩)).sent = [] ∧
      (tokenlessClient.GetPlacementStatByDay (mockServer respOK ⟨"u", ""⟩ ⟨"u", ⟨"g1"⟩⟩)
          "g2" day2024 day2024).outcome = .returned (⟨[]⟩, some .ErrAuthorize) ∧
      (tokenlessClient.GetPlacements (mockServer respOK ⟨"u", ""⟩ ⟨"u", ⟨"g1"⟩⟩)).outcome
        = .returned (⟨[]⟩, some .ErrAuthorize) ∧
      (tokenlessClient.GetPlacements (mockServer respOK ⟨"u", ""⟩ ⟨"u", ⟨"g1"⟩⟩)).sent = [] ∧
      (tokenlessClient.GetPlacementsStat (mockServer respOK ⟨"u", ""⟩ ⟨"u", ⟨"g1"⟩⟩)
          ["p1"] day2024 day2024 true).outcome = .returned (some .ErrAuthorize) ∧
      (tokenlessClient.GetPlacementsStat (mockServer respOK ⟨"u", ""⟩ ⟨"u", ⟨"g1"⟩⟩)
          ["p1"] day2024 day2024 true).sent = [] :=
  have w := empty_token_returns_ErrAuthorize (mockServer respOK ⟨"u", ""⟩ ⟨"u", ⟨"g1"⟩⟩)
    tokenlessClient rfl
  have ws := w.2.2 (by decide)
  ⟨w.1.1, w.1.2.1, (w.2.1 "g2" day2024 day2024).1, ws.1.1, ws.1.2.1,
    (ws.2 ["p1"] day2024 day2024 true).1, (ws.2 ["p1"] day2024 day2024 true).2.1⟩

/-- C5: on a client whose account info has an empty username, whatever the token,
`GetPlacements` returns an empty `PlacementsInfo` with the error "account info not fetched"
and `GetPlacementsStat` returns that error for all arguments; neither sends a request. -/
theorem no_account_info_returns_domain_error (env : Env) (c : Client)
    (h : c.AccountInfo.Username = "") :
    ((c.GetPlacements env).outcome = .returned (⟨[]⟩, some accountInfoNotFetched) ∧
      (c.GetPlacements env).sent = []) ∧
    (∀ (ids : List String) (start stop : Time) (withArchived : Bool),
      (c.GetPlacementsStat env ids start stop withArchived).outcome
          = .returned (some accountInfoNotFetched) ∧
        (c.GetPlacementsStat env ids start stop withArchived).sent = []) := by
  refine ⟨?_, ?_⟩
  · simp [Client.GetPlacements, h]
  · intro ids start stop withArchived
    simp [Client.GetPlacementsStat, h]

/-- C5, on a client that logged in (token `abc`) but never called `Whoami`. -/
theorem no_account_info_returns_domain_error_witness :
    (({ NewClient "u" "p" with xSid := "abc" } : Client).GetPlacements
          (mockServer respOK ⟨"u", ""⟩ ⟨"u", ⟨"g1"⟩⟩)).outcome
        = .returned (⟨[]⟩, some (.errorf "инфо об аккаунте не получено")) ∧
      (({ NewClient "u" "p" with xSid := "abc" } : Client).GetPlacements
          (mockServer respOK ⟨"u", ""⟩ ⟨"u", ⟨"g1"⟩⟩)).sent = [] ∧
      (({ NewClient "u" "p" with xSid := "abc" } : Client).GetPlacementsStat
          (mockServer respOK ⟨"u", ""⟩ ⟨"u", ⟨"g1"⟩⟩) ["p1"] day2024 day2024 false).outcome
        = .returned (some (.errorf "инфо об аккаунте не получено")) ∧
      (({ NewClient "u" "p" with xSid := "abc" } : Client).GetPlacementsStat
          (mockServer respOK ⟨"u", ""⟩ ⟨"u", ⟨"g1"⟩⟩) ["p1"] day2024 day2024 false).sent
        = [] :=
  have w := no_account_info_returns_domain_error (mockServer respOK ⟨"u", ""⟩ ⟨"u", ⟨"g1"⟩⟩)
    { NewClient "u" "p" with xSid := "abc" } rfl
  ⟨w.1.1, w.1.2, (w.2 ["p1"] day2024 day2024 false).1, (w.2 ["p1"] day2024 day2024 false).2⟩

/-! ## Claims about the request parameters of GetPlacementsStat -/

/-- C6, as stated, fails for a date of the year 10000: the start date of the request parameters
is `10000-01-01`, eleven characters with a five-digit year, not the shape `YYYY-MM-DD`. -/
theorem reqParams_year_10000_not_YYYYMMDD :
    (reqParams ["p1"] day10000 day2024 true).StartDate = "10000-01-01" ∧
      isYYYYMMDD (reqParams ["p1"] day10000 day2024 true).StartDate = false := by
  decide

/-- C6, amended: the request parameters `GetPlacementsStat` builds carry the placement ids
unchanged and `with_archived` 1 for true and 0 for false; a start or stop date whose year is
within 0..9999 is rendered as `YYYY-MM-DD` with the four digits of its year, the two of its
month and the two of its day; and the body of the request the operation sends is the
encoding of these parameters. -/
theorem reqParams_fields (ids : List String) (start stop : Time) (withArchived : Bool) :
    (reqParams ids start stop withArchived).PlacementIDS = ids ∧
    (reqParams ids start stop withArchived).WithArchived = (if withArchived then 1 else 0) ∧
    (0 ≤ start.year ∧ start.year ≤ 9999 →
      (reqParams ids start stop withArchived).StartDate
          = renderYYYYMMDD start.year.toNat start.month start.day ∧
        isYYYYMMDD (reqParams ids start stop withArchived).StartDate = true) ∧
    (0 ≤ stop.year ∧ stop.year ≤ 9999 →
      (reqParams ids start stop withArchived).StopDate
          = renderYYYYMMDD stop.year.toNat stop.month stop.day ∧
        isYYYYMMDD (reqParams ids start stop withArchived).StopDate = true) ∧
    (∀ (env : Env) (c : Client) (req : Request),
      (c.GetPlacementsStat env ids start stop withArchived).sent = [req] →
        req.Body = some (env.encodeStat (reqParams ids start stop withArchived))) := by
  have hs : (reqParams ids start stop withArchived).StartDate = start.Format := by
    cases withArchived <;> rfl
  have he : (reqParams ids start stop withArchived).StopDate = stop.Format := by
    cases withArchived <;> rfl
  refine ⟨by cases withArchived <;> rfl, by cases withArchived <;> rfl, ?_, ?_, ?_⟩
  · rintro ⟨h0, h1⟩
    rw [hs, Format_in_range start h0 h1]
    exact ⟨rfl, renderYYYYMMDD_shape _ _ _⟩
  · rintro ⟨h0, h1⟩
    rw [he, Format_in_range stop h0 h1]
    exact ⟨rfl, renderYYYYMMDD_shape _ _ _⟩
  · intro env c req hsent
    simp only [Client.GetPlacementsStat] at hsent
    by_cases hu : c.AccountInfo.Username = ""
    · simp [hu] at hsent
    · simp only [hu, if_false] at hsent
      generalize some (env.encodeStat (reqParams ids start stop withArchived)) = body
        at hsent ⊢
      have hd : (c.doRequest env "POST" (Host ++ method.PlacementsStat) body).sent = [req] := by
        revert hsent
        cases (c.doRequest env "POST" (Host ++ method.PlacementsStat) body).result with
        | error e => exact id
        | ok b => simp only []; cases env.unmarshalString b <;> exact id
      rw [(doRequest_sent c env _ _ _ req hd).2.2]
      rfl

/-- C6, amended, for the seventh of March 2024 with `withArchived = true`: the dates are
`2024-03-07`, `with_archived` is 1, and the request body is the encoding. -/
theorem reqParams_fields_witness :
    (reqParams ["p1"] day2024 day2024 true).PlacementIDS = ["p1"] ∧
      (reqParams ["p1"] day2024 day2024 true).WithArchived = 1 ∧
      (reqParams ["p1"] day2024 day2024 true).StartDate = "2024-03-07" ∧
      isYYYYMMDD (reqParams ["p1"] day2024 day2024 true).StartDate = true ∧
      (reqParams ["p1"] day2024 day2024 true).StopDate = "2024-03-07" ∧
      (⟨"POST", "https://dsp.soloway.ru/api/placements_stat",
          [("Accept", "application/json"), ("Content-Type", "application/json"),
            ("X-sid", "abc")], some "p1,2024-03-07,2024-03-07"⟩ : Request).Body
        = some ((mockServer respOK ⟨"u", ""⟩ ⟨"u", ⟨"g1"⟩⟩).encodeStat
            (reqParams ["p1"] day2024 day2024 true)) :=
  have w := reqParams_fields ["p1"] day2024 day2024 true
  ⟨w.1, w.2.1, (w.2.2.1 (by decide)).1, (w.2.2.1 (by decide)).2, (w.2.2.2.1 (by decide)).1,
    w.2.2.2.2 (mockServer respOK ⟨"u", ""⟩ ⟨"u", ⟨"g1"⟩⟩) readyClient _ (by decide)⟩

/-! ## Login and the missing `X-Sid` header -/

/-- With an `X-Sid` header in the response, a body whose error field is the non-empty `m`
makes `Login` return the `APIError` with the message `m`. -/
theorem Login_error_field_with_sid (env : Env) (c : Client) (req : Request) (resp : Response)
    (v : String) (rest : List String) (bytes : String) (data : ReqUserInfo)
    (hsent : (c.Login env).sent = [req]) (hdo : env.Do req = .ok resp)
    (hstatus : resp.StatusCode = 200) (hsid : resp.Header "X-Sid" = v :: rest)
    (hbody : resp.Body = .ok bytes) (hdec : env.unmarshalReqUserInfo bytes = .ok data)
    (herr : data.Error ≠ "") :
    (c.Login env).outcome = .returned (some (.APIError data.Error)) := by
  rw [Login_run c env req resp hsent hdo]
  simp [hstatus, hsid, hbody, hdec, herr]

/-- C3: answered with status 200, a body whose error field is "bad creds" and no `X-Sid`
header, `Login` does not return the `APIError` "bad creds": it panics at the index `[0]`
of the empty header slice. -/
theorem Login_bad_creds_without_sid_panics :
    ((NewClient "u" "p").Login
          (mockServer respBadCredsNoSid ⟨"", "bad creds"⟩ ⟨"", ⟨""⟩⟩)).outcome
        = .panicked "index out of range [0] with length 0" ∧
      ((NewClient "u" "p").Login
          (mockServer respBadCredsNoSid ⟨"", "bad creds"⟩ ⟨"", ⟨""⟩⟩)).outcome
        ≠ .returned (some (.APIError "bad creds")) := by
  decide

/-- C7: answered with status 200 and no `X-Sid` header, `Login` does not return to its
caller, neither with nor without an error: it panics. -/
theorem Login_without_sid_never_returns :
    ((NewClient "u" "p").Login (mockServer respNoSid ⟨"u", ""⟩ ⟨"", ⟨""⟩⟩)).sent
        = [loginRequestUP] ∧
      ((NewClient "u" "p").Login (mockServer respNoSid ⟨"u", ""⟩ ⟨"", ⟨""⟩⟩)).outcome
        = .panicked "index out of range [0] with length 0" ∧
      ∀ e : Option GoError,
        ((NewClient "u" "p").Login (mockServer respNoSid ⟨"u", ""⟩ ⟨"", ⟨""⟩⟩)).outcome
          ≠ .returned e := by
  refine ⟨by decide, by decide, ?_⟩
  intro e h
  have hp : ((NewClient "u" "p").Login (mockServer respNoSid ⟨"u", ""⟩ ⟨"", ⟨""⟩⟩)).outcome
      = .panicked "index out of range [0] with length 0" := by decide
  rw [hp] at h
  cases h

/-! ## Login and the session token -/

/-- C8: answered with status 200, `X-Sid: abc` and a body whose error field is "bad creds",
`Login` on a fresh client returns an `APIError` and yet the token, empty before, is `abc`
afterwards; the `Whoami` that follows is not rejected with `ErrAuthorize` but sends a
request. -/
theorem Login_error_changes_token :
    (NewClient "u" "p").xSid = "" ∧
      ((NewClient "u" "p").Login
          (mockServer respBadCreds ⟨"", "bad creds"⟩ ⟨"u", ⟨"g1"⟩⟩)).outcome
        = .returned (some (.APIError "bad creds")) ∧
      ((NewClient "u" "p").Login
          (mockServer respBadCreds ⟨"", "bad creds"⟩ ⟨"u", ⟨"g1"⟩⟩)).client.xSid = "abc" ∧
      (((NewClient "u" "p").Login
          (mockServer respBadCreds ⟨"", "bad creds"⟩ ⟨"u", ⟨"g1"⟩⟩)).client.Whoami
          (mockServer respBadCreds ⟨"", "bad creds"⟩ ⟨"u", ⟨"g1"⟩⟩)).outcome
        = .returned none ∧
      (((NewClient "u" "p").Login
          (mockServer respBadCreds ⟨"", "bad creds"⟩ ⟨"u", ⟨"g1"⟩⟩)).client.Whoami
          (mockServer respBadCreds ⟨"", "bad creds"⟩ ⟨"u", ⟨"g1"⟩⟩)).sent.length = 1 := by
  decide

/-- When `Login` fails before a response with status 200 has arrived, the token is not
touched. -/
theorem Login_early_error_keeps_token (env : Env) (c : Client)
    (h : ∀ req resp, (c.Login env).sent = [req] → env.Do req = .ok resp →
      resp.StatusCode ≠ 200) :
    (c.Login env).client = c := by
  unfold Client.Login buildBody newRequest at h ⊢
  cases hre : env.requestErr "POST" (Host ++ method.Login) with
  | some e => simp
  | none =>
    simp only [hre] at h ⊢
    generalize buildHeader _ none = r at h ⊢
    cases hd : env.Do r with
    | error e => simp
    | ok resp =>
      simp only [hd] at h ⊢
      by_cases hst : resp.StatusCode = 200
      · exfalso
        refine h r resp ?_ hd hst
        simp only [hst, ne_eq, not_true_eq_false, ite_false]
        cases resp.Header "X-Sid" with
        | nil => rfl
        | cons v rest =>
          simp only []
          cases resp.Body with
          | error e => rfl
          | ok bytes =>
            simp only []
            cases env.unmarshalReqUserInfo bytes with
            | error e => rfl
            | ok data => simp only []; split <;> rfl
      · simp [hst]

/-- With a token, `Whoami` is never rejected with `ErrAuthorize`. -/
theorem Whoami_with_token (c : Client) (env : Env) (h : c.xSid ≠ "") :
    (c.Whoami env).outcome ≠ .returned (some .ErrAuthorize) := by
  unfold Client.Whoami
  cases hr : (c.doRequest env "GET" (Host ++ method.Whoami) none).result with
  | error e =>
    rcases doRequest_error_kind c env _ _ _ e h hr with ⟨t, rfl⟩ | ⟨t, rfl⟩ <;> simp [hr]
  | ok b =>
    cases hu : env.unmarshalAccountInfo b <;> simp [hr, hu]

/-- C9, as stated, fails when the `X-Sid` header of the response has an empty value: `Login`
returns no error, the token is empty afterwards, and the `Whoami` that follows is rejected
with `ErrAuthorize`. -/
theorem Login_success_with_empty_sid :
    ((NewClient "u" "p").Login (mockServer respEmptySid ⟨"u", ""⟩ ⟨"u", ⟨"g1"⟩⟩)).outcome
        = .returned none ∧
      ((NewClient "u" "p").Login
          (mockServer respEmptySid ⟨"u", ""⟩ ⟨"u", ⟨"g1"⟩⟩)).client.xSid = "" ∧
      (((NewClient "u" "p").Login
          (mockServer respEmptySid ⟨"u", ""⟩ ⟨"u", ⟨"g1"⟩⟩)).client.Whoami
          (mockServer respEmptySid ⟨"u", ""⟩ ⟨"u", ⟨"g1"⟩⟩)).outcome
        = .returned (some .ErrAuthorize) := by
  decide

/-- C9, amended: when `Login` returns no error, the session token afterwards is the first value
of the `X-Sid` header of the response to its request; when that value is not empty, the token
is not empty and a following `Whoami` is not rejected with `ErrAuthorize`. -/
theorem Login_success_token_is_sid (env : Env) (c : Client)
    (h : (c.Login env).outcome = .returned none) :
    ∃ (req : Request) (resp : Response) (v : String) (rest : List String),
      (c.Login env).sent = [req] ∧ env.Do req = .ok resp ∧
      resp.Header "X-Sid" = v :: rest ∧ (c.Login env).client.xSid = v ∧
      (v ≠ "" → (c.Login env).client.xSid ≠ "" ∧
        ∀ env2 : Env, ((c.Login env).client.Whoami env2).outcome
          ≠ .returned (some .ErrAuthorize)) := by
  have key : ∃ (req : Request) (resp : Response) (v : String) (rest : List String),
      (c.Login env).sent = [req] ∧ env.Do req = .ok resp ∧
      resp.Header "X-Sid" = v :: rest ∧ (c.Login env).client.xSid = v := by
    unfold Client.Login buildBody newRequest at h ⊢
    cases hre : env.requestErr "POST" (Host ++ method.Login) with
    | some e => simp [hre] at h
    | none =>
      simp only [hre] at h ⊢
      generalize buildHeader _ none = r at h ⊢
      cases hd : env.Do r with
      | error e => simp [hd] at h
      | ok resp =>
        simp only [hd] at h ⊢
        by_cases hst : resp.StatusCode = 200
        · simp only [hst, ne_eq, not_true_eq_false, ite_false] at h ⊢
          cases hh : resp.Header "X-Sid" with
          | nil => simp [hh] at h
          | cons v rest =>
            simp only [hh] at h ⊢
            cases hb : resp.Body with
            | error e => simp [hb] at h
            | ok bytes =>
              simp only [hb] at h ⊢
              cases hu : env.unmarshalReqUserInfo bytes with
              | error e => simp [hu] at h
              | ok data =>
                simp only [hu] at h ⊢
                by_cases he : data.Error = ""
                · exact ⟨r, resp, v, rest, by simp [he], hd, hh, by simp [he]⟩
                · simp [he] at h
        · simp [hst] at h
  obtain ⟨req, resp, v, rest, h1, h2, h3, h4⟩ := key
  refine ⟨req, resp, v, rest, h1, h2, h3, h4, ?_⟩
  intro hv
  have hne : (c.Login env).client.xSid ≠ "" := by rw [h4]; exact hv
  exact ⟨hne, fun env2 => Whoami_with_token _ env2 hne⟩

/-- C9, amended, at the mock server that answers 200 with `X-Sid: abc`. -/
theorem Login_success_token_is_sid_witness :
    ((NewClient "u" "p").Login (mockServer respOK ⟨"u", ""⟩ ⟨"u", ⟨"g1"⟩⟩)).outcome
        = .returned none ∧
      ∃ (req : Request) (resp : Response) (v : String) (rest : List String),
        ((NewClient "u" "p").Login (mockServer respOK ⟨"u", ""⟩ ⟨"u", ⟨"g1"⟩⟩)).sent = [req] ∧
        (mockServer respOK ⟨"u", ""⟩ ⟨"u", ⟨"g1"⟩⟩).Do req = .ok resp ∧
        resp.Header "X-Sid" = v :: rest ∧
        ((NewClient "u" "p").Login
          (mockServer respOK ⟨"u", ""⟩ ⟨"u", ⟨"g1"⟩⟩)).client.xSid = v ∧
        (v ≠ "" →
          ((NewClient "u" "p").Login
            (mockServer respOK ⟨"u", ""⟩ ⟨"u", ⟨"g1"⟩⟩)).client.xSid ≠ "" ∧
          ∀ env2 : Env,
            (((NewClient "u" "p").Login
              (mockServer respOK ⟨"u", ""⟩ ⟨"u", ⟨"g1"⟩⟩)).client.Whoami env2).outcome
              ≠ .returned (some .ErrAuthorize)) :=
  ⟨by decide,
    Login_success_token_is_sid (mockServer respOK ⟨"u", ""⟩ ⟨"u", ⟨"g1"⟩⟩) (NewClient "u" "p")
      (by decide)⟩

/-! ## Whoami and the account info -/

/-- The helper `doRequest` never returns an error made with `fmt.Errorf`. -/
theorem doRequest_error_not_errorf (c : Client) (env : Env) (m u : String) (b : Option String)
    (err : GoError) (h : (c.doRequest env m u b).result = .error err) (text : String) :
    err ≠ .errorf text := by
  by_cases hseed : c.xSid = ""
  · rw [doRequest_unauthorized c env m u b hseed] at h
    simp only [Except.error.injEq] at h
    subst h
    simp
  · rcases doRequest_error_kind c env m u b err hseed h with ⟨t, rfl⟩ | ⟨t, rfl⟩ <;> simp

/-- With account info, `GetPlacements` does not fail with "account info not fetched". -/
theorem GetPlacements_with_account_info (c : Client) (env : Env)
    (h : c.AccountInfo.Username ≠ "") (p : PlacementsInfo) :
    (c.GetPlacements env).outcome ≠ .returned (p, some accountInfoNotFetched) := by
  unfold Client.GetPlacements
  simp only [h, if_false]
  generalize Host ++ "/api/clients/" ++ c.AccountInfo.Client.GUID ++ "/placements" = url
  cases hr : (c.doRequest env "GET" url none).result with
  | error e =>
    have := doRequest_error_not_errorf c env _ _ _ e hr "инфо об аккаунте не получено"
    simp [hr, accountInfoNotFetched, this]
  | ok b =>
    cases hu : env.unmarshalPlacementsInfo b <;> simp [hr, hu, accountInfoNotFetched]

/-- With account info, `GetPlacementsStat` does not fail with "account info not fetched". -/
theorem GetPlacementsStat_with_account_info (c : Client) (env : Env)
    (h : c.AccountInfo.Username ≠ "") (ids : List String) (start stop : Time)
    (withArchived : Bool) :
    (c.GetPlacementsStat env ids start stop withArchived).outcome
      ≠ .returned (some accountInfoNotFetched) := by
  unfold Client.GetPlacementsStat
  simp only [h, if_false]
  generalize some (env.encodeStat (reqParams ids start stop withArchived)) = body
  cases hr : (c.doRequest env "POST" (Host ++ method.PlacementsStat) body).result with
  | error e =>
    have := doRequest_error_not_errorf c env _ _ _ e hr "инфо об аккаунте не получено"
    simp [hr, accountInfoNotFetched, this]
  | ok b =>
    cases hu : env.unmarshalString b <;> simp [hr, hu, accountInfoNotFetched]

/-- C10, as stated, fails when the decoded account info has an empty username: `Whoami` on a
client that is logged in returns no error and stores the decoded account info, and the
`GetPlacements` and `GetPlacementsStat` that follow still fail with "account info not
fetched". -/
theorem Whoami_success_with_empty_username :
    (({ NewClient "u" "p" with xSid := "abc" } : Client).Whoami
          (mockServer respOK ⟨"u", ""⟩ ⟨"", ⟨"g1"⟩⟩)).outcome = .returned none ∧
      (({ NewClient "u" "p" with xSid := "abc" } : Client).Whoami
          (mockServer respOK ⟨"u", ""⟩ ⟨"", ⟨"g1"⟩⟩)).client.AccountInfo = ⟨"", ⟨"g1"⟩⟩ ∧
      ((({ NewClient "u" "p" with xSid := "abc" } : Client).Whoami
          (mockServer respOK ⟨"u", ""⟩ ⟨"", ⟨"g1"⟩⟩)).client.GetPlacements
          (mockServer respOK ⟨"u", ""⟩ ⟨"", ⟨"g1"⟩⟩)).outcome
        = .returned (⟨[]⟩, some accountInfoNotFetched) ∧
      ((({ NewClient "u" "p" with xSid := "abc" } : Client).Whoami
          (mockServer respOK ⟨"u", ""⟩ ⟨"", ⟨"g1"⟩⟩)).client.GetPlacementsStat
          (mockServer respOK ⟨"u", ""⟩ ⟨"", ⟨"g1"⟩⟩) ["p1"] day2024 day2024 true).outcome
        = .returned (some accountInfoNotFetched) := by
  decide

/-- C10, amended: when `Whoami` returns no error, the account info of the client is the decoded
body of the response to its request, and when the decoded username is not empty a following
`GetPlacements` or `GetPlacementsStat` does not fail with "account info not fetched"; when
`Whoami` returns an error, the account info is what it was. -/
theorem Whoami_stores_account_info (env : Env) (c : Client) :
    ((c.Whoami env).outcome = .returned none →
      ∃ (req : Request) (resp : Response) (bytes : String) (data : AccountInfo),
        (c.Whoami env).sent = [req] ∧ env.Do req = .ok resp ∧ resp.Body = .ok bytes ∧
        env.unmarshalAccountInfo bytes = .ok data ∧
        (c.Whoami env).client.AccountInfo = data ∧
        (data.Username ≠ "" → ∀ env2 : Env,
          (∀ p : PlacementsInfo, ((c.Whoami env).client.GetPlacements env2).outcome
            ≠ .returned (p, some accountInfoNotFetched)) ∧
          (∀ (ids : List String) (start stop : Time) (withArchived : Bool),
            ((c.Whoami env).client.GetPlacementsStat env2 ids start stop withArchived).outcome
              ≠ .returned (some accountInfoNotFetched)))) ∧
    (∀ err : GoError, (c.Whoami env).outcome = .returned (some err) →
      (c.Whoami env).client.AccountInfo = c.AccountInfo) := by
  refine ⟨?_, ?_⟩
  · intro h
    have key : ∃ (req : Request) (resp : Response) (bytes : String) (data : AccountInfo),
        (c.Whoami env).sent = [req] ∧ env.Do req = .ok resp ∧ resp.Body = .ok bytes ∧
        env.unmarshalAccountInfo bytes = .ok data ∧
        (c.Whoami env).client.AccountInfo = data := by
      unfold Client.Whoami at h ⊢
      by_cases hseed : c.xSid = ""
      · simp [doRequest_unauthorized c env _ _ _ hseed] at h
      · cases hre : env.requestErr "GET" (Host ++ method.Whoami) with
        | some e =>
          simp [Client.doRequest, newRequest, checkSeed, hseed, hre] at h
        | none =>
          cases hd : env.Do (buildHeader ⟨"GET", Host ++ method.Whoami, [], none⟩
              (some c.xSid)) with
          | error e =>
            simp [Client.doRequest, newRequest, checkSeed, hseed, hre, hd] at h
          | ok resp =>
            rw [doRequest_run c env _ _ _ resp hseed hre hd] at h ⊢
            by_cases hst : resp.StatusCode = 200
            · cases hb : resp.Body with
              | error e => simp [hst, hb] at h
              | ok bytes =>
                cases hu : env.unmarshalAccountInfo bytes with
                | error e => simp [hst, hb, hu] at h
                | ok data =>
                  exact ⟨_, resp, bytes, data, by simp [hst, hb, hu], hd, hb, hu,
                    by simp [hst, hb, hu]⟩
            · simp [hst] at h
    obtain ⟨req, resp, bytes, data, h1, h2, h3, h4, h5⟩ := key
    refine ⟨req, resp, bytes, data, h1, h2, h3, h4, h5, ?_⟩
    intro hname env2
    have hne : (c.Whoami env).client.AccountInfo.Username ≠ "" := by rw [h5]; exact hname
    exact ⟨fun p => GetPlacements_with_account_info _ env2 hne p,
      fun ids start stop withArchived =>
        GetPlacementsStat_with_account_info _ env2 hne ids start stop withArchived⟩
  · intro err h
    unfold Client.Whoami at h ⊢
    cases hr : (c.doRequest env "GET" (Host ++ method.Whoami) none).result with
    | error e => simp [hr]
    | ok b =>
      cases hu : env.unmarshalAccountInfo b with
      | error e => simp [hr, hu]
      | ok data => simp [hr, hu] at h

/-- C10, amended, at the mock server that answers 200 with the account info of user `u`. -/
theorem Whoami_stores_account_info_witness :
    (({ NewClient "u" "p" with xSid := "abc" } : Client).Whoami
          (mockServer respOK ⟨"u", ""⟩ ⟨"u", ⟨"g1"⟩⟩)).outcome = .returned none ∧
      (({ NewClient "u" "p" with xSid := "abc" } : Client).Whoami
          (mockServer respOK ⟨"u", ""⟩ ⟨"u", ⟨"g1"⟩⟩)).client.AccountInfo = ⟨"u", ⟨"g1"⟩⟩ ∧
      (∃ (req : Request) (resp : Response) (bytes : String) (data : AccountInfo),
        (({ NewClient "u" "p" with xSid := "abc" } : Client).Whoami
          (mockServer respOK ⟨"u", ""⟩ ⟨"u", ⟨"g1"⟩⟩)).sent = [req] ∧
        (mockServer respOK ⟨"u", ""⟩ ⟨"u", ⟨"g1"⟩⟩).Do req = .ok resp ∧
        resp.Body = .ok bytes ∧
        (mockServer respOK ⟨"u", ""⟩ ⟨"u", ⟨"g1"⟩⟩).unmarshalAccountInfo bytes = .ok data ∧
        (({ NewClient "u" "p" with xSid := "abc" } : Client).Whoami
          (mockServer respOK ⟨"u", ""⟩ ⟨"u", ⟨"g1"⟩⟩)).client.AccountInfo = data ∧
        (data.Username ≠ "" → ∀ env2 : Env,
          (∀ p : PlacementsInfo,
            ((({ NewClient "u" "p" with xSid := "abc" } : Client).Whoami
              (mockServer respOK ⟨"u", ""⟩ ⟨"u", ⟨"g1"⟩⟩)).client.GetPlacements env2).outcome
              ≠ .returned (p, some accountInfoNotFetched)) ∧
          (∀ (ids : List String) (start stop : Time) (withArchived : Bool),
            ((({ NewClient "u" "p" with xSid := "abc" } : Client).Whoami
              (mockServer respOK ⟨"u", ""⟩ ⟨"u", ⟨"g1"⟩⟩)).client.GetPlacementsStat env2 ids
                start stop withArchived).outcome
              ≠ .returned (some accountInfoNotFetched)))) ∧
      ((readyClient.Whoami (mockServer respUnauthorized ⟨"", ""⟩ ⟨"", ⟨""⟩⟩)).outcome
          = .returned (some (.APIError "401 Unauthorized")) ∧
        (readyClient.Whoami (mockServer respUnauthorized ⟨"", ""⟩ ⟨"", ⟨""⟩⟩)).client.AccountInfo
          = readyClient.AccountInfo) :=
  ⟨by decide, by decide,
    (Whoami_stores_account_info (mockServer respOK ⟨"u", ""⟩ ⟨"u", ⟨"g1"⟩⟩)
      { NewClient "u" "p" with xSid := "abc" }).1 (by decide),
    by decide,
    (Whoami_stores_account_info (mockServer respUnauthorized ⟨"", ""⟩ ⟨"", ⟨""⟩⟩)
      readyClient).2 (.APIError "401 Unauthorized") (by decide)⟩

end Solowaysdk
